import Mathlib

/-!
Verification development for the memsim multi-fidelity DRAM controller.

The definitions below are a shallow embedding of the C++ sources:
  - src/include/sw/memsim/core/types.hpp         (Request, RequestType, BankState)
  - src/include/sw/memsim/core/timing.hpp        (TimingParams, OrganizationParams, ControllerConfig)
  - src/include/sw/memsim/core/statistics.hpp    (Statistics)
  - src/include/sw/memsim/scheduler/fifo.hpp     (FifoScheduler)
  - src/include/sw/memsim/scheduler/fr_fcfs.hpp  (FrFcfsScheduler)
  - src/include/sw/memsim/scheduler/fr_fcfs_grp.hpp (FrFcfsGrpScheduler)
  - src/include/sw/memsim/technology/lpddr5/lpddr5_controller.hpp (LPDDR5Bank, BehavioralLPDDR5Controller)
  - src/src/technology/lpddr5_controller.cpp     (CycleAccurateLPDDR5Controller)

Machine integers (uint64_t cycles, addresses, counters) are modelled as Nat:
no arithmetic in the modelled code paths can overflow 64 bits on the inputs
considered, and the C++ subtraction current_cycle - submit_cycle is applied
only when submit_cycle <= current_cycle, where Nat subtraction agrees.
Completion callbacks (std::function) are modelled as an emitted event list of
(request id, latency) pairs; Request.callback is the bool "a callback is
attached" (the C++ null test `if (request.callback)`).
-/

namespace MemSim

inductive RequestType where
  | READ
  | WRITE
deriving DecidableEq, Repr

inductive BankState where
  | IDLE
  | ACTIVATING
  | ACTIVE
  | READING
  | WRITING
  | PRECHARGING
  | REFRESHING
deriving DecidableEq, Repr

/-- Memory request (types.hpp `struct Request`); decoded fields filled by the controller. -/
structure Request where
  id : Nat := 0
  address : Nat := 0
  size : Nat := 0
  type : RequestType := RequestType.READ
  submit_cycle : Nat := 0
  callback : Bool := false
  channel : Nat := 0
  bank : Nat := 0
  row : Nat := 0
  column : Nat := 0
deriving DecidableEq, Repr

/-- DRAM timing parameters in memory-clock cycles (timing.hpp), with the C++ defaults. -/
structure TimingParams where
  tRCD : Nat := 14
  tRP : Nat := 14
  tRAS : Nat := 28
  tRC : Nat := 42
  tCL : Nat := 14
  tWL : Nat := 8
  tWR : Nat := 24
  tRTP : Nat := 6
  tRRD_L : Nat := 6
  tRRD_S : Nat := 4
  tCCD_L : Nat := 6
  tCCD_S : Nat := 4
  tFAW : Nat := 24
  tWTR_L : Nat := 10
  tWTR_S : Nat := 4
  tRTW : Nat := 14
  tBurst : Nat := 8
  tRFC : Nat := 280
  tRFCpb : Nat := 90
  tRFCsb : Nat := 90
  tREFI : Nat := 3900
  fixed_read_latency : Nat := 100
  fixed_write_latency : Nat := 100
deriving DecidableEq, Repr

/-- Organization parameters (timing.hpp), C++ defaults. -/
structure OrganizationParams where
  num_channels : Nat := 1
  ranks_per_channel : Nat := 1
  bank_groups_per_rank : Nat := 4
  banks_per_bank_group : Nat := 4
  rows_per_bank : Nat := 65536
  columns_per_row : Nat := 1024
deriving DecidableEq, Repr

def OrganizationParams.banks_per_rank (o : OrganizationParams) : Nat :=
  o.bank_groups_per_rank * o.banks_per_bank_group

/-- Controller configuration (timing.hpp `struct ControllerConfig`), fields used by the model. -/
structure ControllerConfig where
  queue_depth : Nat := 32
  timing : TimingParams := {}
  organization : OrganizationParams := {}
deriving DecidableEq, Repr

/-- Statistics counter bundle (statistics.hpp). min_latency starts at UINT64_MAX. -/
structure Statistics where
  reads : Nat := 0
  writes : Nat := 0
  page_hits : Nat := 0
  page_empty : Nat := 0
  page_conflicts : Nat := 0
  total_read_latency : Nat := 0
  total_write_latency : Nat := 0
  min_latency : Nat := 18446744073709551615
  max_latency : Nat := 0
  busy_cycles : Nat := 0
  idle_cycles : Nat := 0
  stall_cycles : Nat := 0
  refreshes : Nat := 0
  refresh_cycles : Nat := 0
  read_to_write_turnarounds : Nat := 0
  write_to_read_turnarounds : Nat := 0
  active_cycles : Nat := 0
  precharge_cycles : Nat := 0
  powerdown_cycles : Nat := 0
deriving DecidableEq, Repr

/-- Statistics::reset — all counters to zero, min_latency back to UINT64_MAX. -/
def Statistics.reset (_s : Statistics) : Statistics := {}

/-- Statistics::record_request(type, latency, page_hit, page_conflict). -/
def Statistics.record_request (s : Statistics) (t : RequestType) (latency : Nat)
    (page_hit page_conflict : Bool) : Statistics :=
  let s1 :=
    if t = RequestType.READ then
      { s with reads := s.reads + 1, total_read_latency := s.total_read_latency + latency }
    else
      { s with writes := s.writes + 1, total_write_latency := s.total_write_latency + latency }
  let s2 :=
    if page_hit then { s1 with page_hits := s1.page_hits + 1 }
    else if page_conflict then { s1 with page_conflicts := s1.page_conflicts + 1 }
    else { s1 with page_empty := s1.page_empty + 1 }
  { s2 with min_latency := min s2.min_latency latency,
            max_latency := max s2.max_latency latency }

/-- LPDDR5 per-bank state machine record (lpddr5_controller.hpp `struct LPDDR5Bank`). -/
structure LPDDR5Bank where
  state : BankState := BankState.IDLE
  open_row : Nat := 0
  state_until : Nat := 0
  next_act : Nat := 0
  next_rd : Nat := 0
  next_wr : Nat := 0
  next_pre : Nat := 0
deriving DecidableEq, Repr

/-- LPDDR5Bank::is_ready_for(type, now). -/
def LPDDR5Bank.is_ready_for (b : LPDDR5Bank) (t : RequestType) (now : Nat) : Bool :=
  if b.state ≠ BankState.ACTIVE then false
  else if t = RequestType.READ then b.next_rd ≤ now else b.next_wr ≤ now

-- ============================================================================
-- Schedulers (fifo.hpp, fr_fcfs.hpp, fr_fcfs_grp.hpp)
-- ============================================================================

/-- FIFO scheduler state (fifo.hpp). Per-bank request lists plus the occupancy counter. -/
structure FifoScheduler where
  buffer_size : Nat
  buffers : List (List Request)
  total_occupancy : Nat
deriving DecidableEq, Repr

/-- FifoScheduler::has_pending(bank, type) — literally `buffers_[bank].size() >= 2`. -/
def FifoScheduler.has_pending (s : FifoScheduler) (bank : Nat) (_t : RequestType) : Bool :=
  2 ≤ (s.buffers.getD bank []).length

/-- FR-FCFS scheduler state (fr_fcfs.hpp). The mutable selection counters are not modelled. -/
structure FrFcfsScheduler where
  buffer_size : Nat
  buffers : List (List Request)
  total_occupancy : Nat
deriving DecidableEq, Repr

/-- FrFcfsScheduler::has_space(count): `total_occupancy_ + count <= config_.buffer_size`. -/
def FrFcfsScheduler.has_space (s : FrFcfsScheduler) (count : Nat) : Bool :=
  s.total_occupancy + count ≤ s.buffer_size

/-- FrFcfsScheduler::store — push_back into the bank's list, bump the counter. -/
def FrFcfsScheduler.store (s : FrFcfsScheduler) (r : Request) : FrFcfsScheduler :=
  { s with buffers := s.buffers.set r.bank (s.buffers.getD r.bank [] ++ [r]),
           total_occupancy := s.total_occupancy + 1 }

/-- Erase the first list element whose id matches; report whether one was found
(the C++ loop in FrFcfsScheduler::remove). -/
def removeById : List Request → Nat → List Request × Bool
  | [], _ => ([], false)
  | r :: rest, i =>
    if r.id = i then (rest, true)
    else
      let p := removeById rest i
      (r :: p.1, p.2)

/-- FrFcfsScheduler::remove — erase by id; counters only change when an entry was erased. -/
def FrFcfsScheduler.remove (s : FrFcfsScheduler) (r : Request) : FrFcfsScheduler :=
  let p := removeById (s.buffers.getD r.bank []) r.id
  { s with buffers := s.buffers.set r.bank p.1,
           total_occupancy := if p.2 then s.total_occupancy - 1 else s.total_occupancy }

/-- FrFcfsScheduler::get_next(bank, open_row, last_cmd): first row hit in arrival
order when the bank has an open row, else the oldest request. -/
def FrFcfsScheduler.get_next (s : FrFcfsScheduler) (bank : Nat)
    (open_row : Option Nat) (_last_cmd : RequestType) : Option Request :=
  let buffer := s.buffers.getD bank []
  if buffer.isEmpty then none
  else
    match open_row with
    | some row =>
      match buffer.find? (fun r => r.row == row) with
      | some r => some r
      | none => buffer.head?
    | none => buffer.head?

/-- FrFcfsScheduler::has_pending(bank, type) — literally `buffers_[bank].size() >= 2`. -/
def FrFcfsScheduler.has_pending (s : FrFcfsScheduler) (bank : Nat) (_t : RequestType) : Bool :=
  2 ≤ (s.buffers.getD bank []).length

/-- FrFcfsScheduler::has_any_pending — `total_occupancy_ > 0`. -/
def FrFcfsScheduler.has_any_pending (s : FrFcfsScheduler) : Bool :=
  0 < s.total_occupancy

/-- FR-FCFS-GRP scheduler state (fr_fcfs_grp.hpp); last_command_ is the member
updated by remove(), used (not the last_cmd argument) for grouping. -/
structure FrFcfsGrpScheduler where
  buffer_size : Nat
  buffers : List (List Request)
  total_occupancy : Nat
  last_command : RequestType
deriving DecidableEq, Repr

/-- FrFcfsGrpScheduler::has_address_hazard(candidates, target): scan the
candidates in order; stop without hazard at target itself (the C++ compares
request pointers; queue entries are distinct objects, modelled as distinct
values), report a hazard at an earlier candidate with the same address. -/
def FrFcfsGrpScheduler.has_address_hazard : List Request → Request → Bool
  | [], _ => false
  | r :: rest, target =>
    if r = target then false
    else if r.address = target.address then true
    else FrFcfsGrpScheduler.has_address_hazard rest target

/-- FrFcfsGrpScheduler::get_next — filter row hits; among them first same-type
hazard-free request, else the first row hit, else the oldest request. -/
def FrFcfsGrpScheduler.get_next (s : FrFcfsGrpScheduler) (bank : Nat)
    (open_row : Option Nat) (_last_cmd : RequestType) : Option Request :=
  let buffer := s.buffers.getD bank []
  if buffer.isEmpty then none
  else
    match open_row with
    | some row =>
      let row_hits := buffer.filter (fun r => r.row == row)
      if row_hits.isEmpty then buffer.head?
      else
        match row_hits.find?
            (fun r => r.type == s.last_command
              && ! FrFcfsGrpScheduler.has_address_hazard row_hits r) with
        | some r => some r
        | none => row_hits.head?
    | none => buffer.head?

/-- FrFcfsGrpScheduler::has_pending(bank, type) — literally `buffers_[bank].size() >= 2`. -/
def FrFcfsGrpScheduler.has_pending (s : FrFcfsGrpScheduler) (bank : Nat) (_t : RequestType) : Bool :=
  2 ≤ (s.buffers.getD bank []).length

-- ============================================================================
-- Cycle-accurate LPDDR5 controller (lpddr5_controller.cpp)
-- ============================================================================

/-- A DRAM command observed on the command bus during one tick. -/
inductive CmdKind where
  | ACT
  | RD
  | WR
  | PRE
deriving DecidableEq, Repr

structure Cmd where
  kind : CmdKind
  bank : Nat
deriving DecidableEq, Repr

/-- CycleAccurateLPDDR5Controller state. violations_ stay empty
(check_timing_invariants is an empty TODO); refresh_ is never constructed. -/
structure CAController where
  config : ControllerConfig
  current_cycle : Nat
  next_id : Nat
  banks : List LPDDR5Bank
  scheduler : FrFcfsScheduler
  last_command : RequestType
  last_read_cycle : Nat
  last_write_cycle : Nat
  stats : Statistics
deriving DecidableEq, Repr

/-- Constructor: one bank per (channel, bank); FR-FCFS scheduler whose
buffer_size is the configured queue_depth, with one empty list per bank. -/
def CAController.init (cfg : ControllerConfig) : CAController :=
  let n := cfg.organization.num_channels * cfg.organization.banks_per_rank
  { config := cfg
    current_cycle := 0
    next_id := 1
    banks := List.replicate n {}
    scheduler := { buffer_size := cfg.queue_depth
                   buffers := List.replicate n []
                   total_occupancy := 0 }
    last_command := RequestType.READ
    last_read_cycle := 0
    last_write_cycle := 0
    stats := {} }

/-- CycleAccurateLPDDR5Controller::decode_address: column = low 10 bits,
bank = next bits masked with banks_per_rank-1 (the shift is a fixed 4 bits),
row = next 16 bits, channel masked with num_channels-1. -/
def decode_address (org : OrganizationParams) (req : Request) : Request :=
  let addr0 := req.address
  let column := addr0 % 1024
  let addr1 := addr0 / 1024
  let bank := Nat.land addr1 (org.banks_per_rank - 1)
  let addr2 := addr1 / 16
  let row := addr2 % 65536
  let addr3 := addr2 / 65536
  let channel := Nat.land addr3 (org.num_channels - 1)
  { req with column := column, bank := bank, row := row, channel := channel }

/-- CycleAccurateLPDDR5Controller::submit. -/
def CAController.submit (c : CAController) (request : Request) : Option Nat × CAController :=
  if ¬ c.scheduler.has_space 1 then (none, c)
  else
    let request := { request with id := c.next_id, submit_cycle := c.current_cycle }
    let request := decode_address c.config.organization request
    (some request.id,
     { c with next_id := c.next_id + 1, scheduler := c.scheduler.store request })

def CAController.has_pending (c : CAController) : Bool :=
  c.scheduler.has_any_pending

def CAController.pending_count (c : CAController) : Nat :=
  c.scheduler.total_occupancy

/-- One bank's transition in update_bank_states (deadline-elapsed auto transitions). -/
def stepBank (now : Nat) (b : LPDDR5Bank) : LPDDR5Bank :=
  if b.state_until ≤ now then
    match b.state with
    | BankState.ACTIVATING => { b with state := BankState.ACTIVE }
    | BankState.PRECHARGING => { b with state := BankState.IDLE, open_row := 0 }
    | BankState.READING => { b with state := BankState.ACTIVE }
    | BankState.WRITING => { b with state := BankState.ACTIVE }
    | BankState.REFRESHING => { b with state := BankState.IDLE }
    | _ => b
  else b

/-- CycleAccurateLPDDR5Controller::update_bank_states. -/
def update_bank_states (now : Nat) (banks : List LPDDR5Bank) : List LPDDR5Bank :=
  banks.map (stepBank now)

/-- The mutable state threaded through the issue_commands loop, plus the
commands put on the bus and the callback events fired during the tick. -/
structure IssueSt where
  banks : List LPDDR5Bank
  scheduler : FrFcfsScheduler
  stats : Statistics
  last_command : RequestType
  last_read_cycle : Nat
  last_write_cycle : Nat
  cmds : List Cmd
  events : List (Nat × Nat)
deriving DecidableEq, Repr

/-- One iteration of the issue_commands loop for bank index i. -/
def issueStep (cfg : ControllerConfig) (now : Nat) (st : IssueSt) (i : Nat) : IssueSt :=
  let bank := st.banks.getD i {}
  let row_opt : Option Nat :=
    if bank.state = BankState.ACTIVE then some bank.open_row else none
  match st.scheduler.get_next i row_opt st.last_command with
  | none => st
  | some req =>
    if bank.state = BankState.IDLE then
      if bank.next_act ≤ now then
        let bank1 := { bank with
          state := BankState.ACTIVATING
          open_row := req.row
          state_until := now + cfg.timing.tRCD
          next_act := now + cfg.timing.tRC
          next_rd := now + cfg.timing.tRCD
          next_wr := now + cfg.timing.tRCD }
        { st with banks := st.banks.set i bank1
                  cmds := st.cmds ++ [{ kind := CmdKind.ACT, bank := i }] }
      else st
    else if bank.state = BankState.ACTIVE then
      if bank.open_row = req.row then
        if bank.is_ready_for req.type now then
          let stats1 := { st.stats with page_hits := st.stats.page_hits + 1 }
          let bank1 :=
            if req.type = RequestType.READ then
              { bank with
                state := BankState.READING
                state_until := now + cfg.timing.tBurst
                next_rd := now + cfg.timing.tCCD_S
                next_wr := now + cfg.timing.tRTW }
            else
              { bank with
                state := BankState.WRITING
                state_until := now + cfg.timing.tBurst
                next_wr := now + cfg.timing.tCCD_S
                next_rd := now + cfg.timing.tWTR_S }
          let lrc := if req.type = RequestType.READ then now else st.last_read_cycle
          let lwc := if req.type = RequestType.READ then st.last_write_cycle else now
          let ck := if req.type = RequestType.READ then CmdKind.RD else CmdKind.WR
          let latency := now - req.submit_cycle + cfg.timing.tBurst
          let stats2 := stats1.record_request req.type latency true false
          let events1 :=
            if req.callback then st.events ++ [(req.id, latency)] else st.events
          { st with banks := st.banks.set i bank1
                    scheduler := st.scheduler.remove req
                    stats := stats2
                    last_command := req.type
                    last_read_cycle := lrc
                    last_write_cycle := lwc
                    cmds := st.cmds ++ [{ kind := ck, bank := i }]
                    events := events1 }
        else st
      else
        let stats1 := { st.stats with page_conflicts := st.stats.page_conflicts + 1 }
        if bank.next_pre ≤ now then
          let bank1 := { bank with
            state := BankState.PRECHARGING
            state_until := now + cfg.timing.tRP
            next_act := now + cfg.timing.tRP }
          { st with banks := st.banks.set i bank1
                    stats := stats1
                    cmds := st.cmds ++ [{ kind := CmdKind.PRE, bank := i }] }
        else { st with stats := stats1 }
    else st

/-- CycleAccurateLPDDR5Controller::issue_commands — the loop over all banks. -/
def issue_commands (cfg : ControllerConfig) (now : Nat) (st : IssueSt) : IssueSt :=
  (List.range st.banks.length).foldl (issueStep cfg now) st

/-- CycleAccurateLPDDR5Controller::tick. Returns the new state, the commands
issued on the command bus this cycle, and the callback events fired
(complete_transfers is empty: completions happen inside issue_commands). -/
def CAController.tick (c : CAController) : CAController × List Cmd × List (Nat × Nat) :=
  let now := c.current_cycle + 1
  let banks1 := update_bank_states now c.banks
  let st0 : IssueSt :=
    { banks := banks1, scheduler := c.scheduler, stats := c.stats
      last_command := c.last_command, last_read_cycle := c.last_read_cycle
      last_write_cycle := c.last_write_cycle, cmds := [], events := [] }
  let st := issue_commands c.config now st0
  ({ c with current_cycle := now, banks := st.banks, scheduler := st.scheduler
            stats := st.stats, last_command := st.last_command
            last_read_cycle := st.last_read_cycle
            last_write_cycle := st.last_write_cycle },
   st.cmds, st.events)

def CAController.tickState (c : CAController) : CAController := c.tick.1

/-- n successive ticks. -/
def CAController.run (c : CAController) : Nat → CAController
  | 0 => c
  | n + 1 => c.tickState.run n

/-- CycleAccurateLPDDR5Controller::reset — zero the cycle and id counter,
default-construct every bank, reset statistics, clear violations.
The scheduler buffer is NOT touched (faithful to the source). -/
def CAController.reset (c : CAController) : CAController :=
  { c with current_cycle := 0
           next_id := 1
           banks := List.replicate c.banks.length {}
           stats := c.stats.reset }

-- ============================================================================
-- Behavioral LPDDR5 controller (lpddr5_controller.hpp)
-- ============================================================================

structure BehavioralController where
  config : ControllerConfig
  current_cycle : Nat
  next_id : Nat
  stats : Statistics
deriving DecidableEq, Repr

def BehavioralController.init (cfg : ControllerConfig) : BehavioralController :=
  { config := cfg, current_cycle := 0, next_id := 1, stats := {} }

/-- BehavioralLPDDR5Controller::submit — fixed latency per type, statistics
updated, callback invoked inline (emitted as an event) before returning. -/
def BehavioralController.submit (c : BehavioralController) (request : Request) :
    Option Nat × BehavioralController × List (Nat × Nat) :=
  let rid := c.next_id
  let latency :=
    if request.type = RequestType.READ then c.config.timing.fixed_read_latency
    else c.config.timing.fixed_write_latency
  let stats1 :=
    if request.type = RequestType.READ then
      { c.stats with reads := c.stats.reads + 1
                     total_read_latency := c.stats.total_read_latency + latency }
    else
      { c.stats with writes := c.stats.writes + 1
                     total_write_latency := c.stats.total_write_latency + latency }
  let events := if request.callback then [(rid, latency)] else []
  (some rid, { c with next_id := rid + 1, stats := stats1 }, events)

/-- BehavioralLPDDR5Controller::tick — a bare cycle-counter increment;
no completion work is performed (no events). -/
def BehavioralController.tick (c : BehavioralController) :
    BehavioralController × List (Nat × Nat) :=
  ({ c with current_cycle := c.current_cycle + 1 }, [])

-- ============================================================================
-- Concrete fixtures used by several theorems below
-- ============================================================================

/-- One channel, one bank group of one bank: a single-bank configuration. -/
def cfgOneBank : ControllerConfig :=
  { organization := { bank_groups_per_rank := 1, banks_per_bank_group := 1 } }

/-- One channel, one bank group of two banks. -/
def cfgTwoBanks : ControllerConfig :=
  { organization := { bank_groups_per_rank := 1, banks_per_bank_group := 2 } }

/-- A read with a callback attached; address 0 decodes to bank 0, row 0. -/
def readReq0 : Request := { address := 0, type := RequestType.READ, callback := true }

/-- A read with a callback attached; address 1024 decodes to bank 1, row 0
under cfgTwoBanks. -/
def readReq1 : Request := { address := 1024, type := RequestType.READ, callback := true }

-- ============================================================================
-- Helper lemmas (shared)
-- ============================================================================

/-- find? decomposition: a successful find? splits the list at the first match. -/
theorem find?_mem_decomp (p : Request → Bool) :
    ∀ (l : List Request) (r : Request), l.find? p = some r →
      ∃ l₁ l₂, l = l₁ ++ r :: l₂ ∧ p r = true ∧ ∀ x ∈ l₁, ¬ p x = true := by
  intro l
  induction l with
  | nil => intro r h; simp at h
  | cons a t ih =>
    intro r h
    by_cases hp : p a = true
    · rw [List.find?_cons_of_pos t hp] at h
      obtain rfl : a = r := by injection h
      exact ⟨[], t, rfl, hp, by simp⟩
    · rw [List.find?_cons_of_neg t hp] at h
      obtain ⟨l₁, l₂, hdec, hpr, hfirst⟩ := ih r h
      refine ⟨a :: l₁, l₂, by rw [hdec]; rfl, hpr, ?_⟩
      intro x hx
      rcases List.mem_cons.1 hx with hxa | hx'
      · rw [hxa]; exact hp
      · exact hfirst x hx'

/-- find? succeeds when some element satisfies the predicate. -/
theorem find?_isSome_of_mem (p : Request → Bool) :
    ∀ (l : List Request) (x : Request), x ∈ l → p x = true →
      ∃ r, l.find? p = some r := by
  intro l
  induction l with
  | nil => intro x hx; simp at hx
  | cons a t ih =>
    intro x hx hp
    by_cases hpa : p a = true
    · exact ⟨a, List.find?_cons_of_pos t hpa⟩
    · rcases List.mem_cons.1 hx with hxa | hx'
      · rw [hxa] at hp; exact absurd hp hpa
      · obtain ⟨r, hr⟩ := ih x hx' hp
        exact ⟨r, by rw [List.find?_cons_of_neg t hpa]; exact hr⟩

/-- head? of a list with a distinguished later element: the head is either in
the prefix or equals the distinguished first element. -/
theorem head?_append_cons (l₁ : List Request) (r' : Request) (l₂ : List Request)
    (r : Request) (h : (l₁ ++ r' :: l₂).head? = some r) : r ∈ l₁ ∨ r = r' := by
  cases l₁ with
  | nil =>
    simp only [List.nil_append, List.head?_cons] at h
    right; exact (Option.some.inj h).symm
  | cons a t =>
    simp only [List.cons_append, List.head?_cons] at h
    left
    rw [← Option.some.inj h]
    exact List.mem_cons_self a t

/-- Filtering a list that contains two distinguished row hits keeps them in place. -/
theorem filter_decomp_row (row : Nat) (l₁ : List Request) (r' : Request)
    (l₂ : List Request) (r : Request) (l₃ : List Request)
    (hpr' : (r'.row == row) = true) (hprn : (r.row == row) = true) :
    (l₁ ++ r' :: (l₂ ++ r :: l₃)).filter (fun x => x.row == row)
      = l₁.filter (fun x => x.row == row)
        ++ r' :: (l₂.filter (fun x => x.row == row)
          ++ r :: l₃.filter (fun x => x.row == row)) := by
  simp [List.filter_append, List.filter_cons, hpr', hprn]

-- ============================================================================
-- Claim C4 — FR-FCFS selection policy
-- ============================================================================

/-- Claim C4: for every non-empty per-bank queue, FrFcfsScheduler::get_next with
open_row set returns the first request in arrival order whose row equals
open_row when such a request exists; otherwise (no matching row, or open_row
not set) it returns the oldest request in the bank queue. -/
theorem frFcfs_get_next_policy (s : FrFcfsScheduler) (bank : Nat) (row : Nat)
    (lc : RequestType) (hne : s.buffers.getD bank [] ≠ []) :
    ((∃ x ∈ s.buffers.getD bank [], x.row = row) →
      ∃ l₁ r l₂, s.buffers.getD bank [] = l₁ ++ r :: l₂ ∧ r.row = row
        ∧ (∀ x ∈ l₁, x.row ≠ row)
        ∧ s.get_next bank (some row) lc = some r)
    ∧ ((∀ x ∈ s.buffers.getD bank [], x.row ≠ row) →
        s.get_next bank (some row) lc = (s.buffers.getD bank []).head?)
    ∧ s.get_next bank none lc = (s.buffers.getD bank []).head? := by
  have hemp : (s.buffers.getD bank []).isEmpty = false := List.isEmpty_eq_false.2 hne
  refine ⟨?_, ?_, ?_⟩
  · rintro ⟨x, hx, hxrow⟩
    have hpx : (x.row == row) = true := by simpa using hxrow
    obtain ⟨r, hfind⟩ :=
      find?_isSome_of_mem (fun r => r.row == row) (s.buffers.getD bank []) x hx hpx
    obtain ⟨l₁, l₂, hdec, hpr, hfirst⟩ :=
      find?_mem_decomp (fun r => r.row == row) (s.buffers.getD bank []) r hfind
    refine ⟨l₁, r, l₂, hdec, by simpa using hpr, ?_, ?_⟩
    · intro y hy
      have := hfirst y hy
      simpa using this
    · simp only [FrFcfsScheduler.get_next, hemp, hfind]
      rfl
  · intro hall
    have hfind : (s.buffers.getD bank []).find? (fun r => r.row == row) = none := by
      rw [List.find?_eq_none]
      intro x hx
      simpa using hall x hx
    simp only [FrFcfsScheduler.get_next, hemp, hfind]
    rfl
  · simp only [FrFcfsScheduler.get_next, hemp]
    rfl

/-- Witness for C4 at a concrete two-request queue: requests with rows 5 and 7,
selecting row 7 skips the older row-5 request. -/
theorem frFcfs_get_next_policy_witness :
    ((∃ x ∈ (FrFcfsScheduler.mk 32
        [[{ id := 1, row := 5 }, { id := 2, row := 7 }]] 2).buffers.getD 0 [],
        x.row = 7) →
      ∃ l₁ r l₂, (FrFcfsScheduler.mk 32
          [[{ id := 1, row := 5 }, { id := 2, row := 7 }]] 2).buffers.getD 0 []
          = l₁ ++ r :: l₂ ∧ r.row = 7
        ∧ (∀ x ∈ l₁, x.row ≠ 7)
        ∧ (FrFcfsScheduler.mk 32
            [[{ id := 1, row := 5 }, { id := 2, row := 7 }]] 2).get_next 0 (some 7)
            RequestType.READ = some r)
    ∧ ((∀ x ∈ (FrFcfsScheduler.mk 32
          [[{ id := 1, row := 5 }, { id := 2, row := 7 }]] 2).buffers.getD 0 [],
          x.row ≠ 7) →
        (FrFcfsScheduler.mk 32
          [[{ id := 1, row := 5 }, { id := 2, row := 7 }]] 2).get_next 0 (some 7)
          RequestType.READ
          = ((FrFcfsScheduler.mk 32
              [[{ id := 1, row := 5 }, { id := 2, row := 7 }]] 2).buffers.getD 0 []).head?)
    ∧ (FrFcfsScheduler.mk 32
        [[{ id := 1, row := 5 }, { id := 2, row := 7 }]] 2).get_next 0 none
        RequestType.READ
        = ((FrFcfsScheduler.mk 32
            [[{ id := 1, row := 5 }, { id := 2, row := 7 }]] 2).buffers.getD 0 []).head? :=
  frFcfs_get_next_policy _ 0 7 RequestType.READ (by decide)

-- ============================================================================
-- Claim C5 — FR-FCFS-GRP address-hazard guard
-- ============================================================================

/-- The hazard scan reports a hazard whenever a distinct request with the same
address occurs in the candidate list strictly before the target's occurrence. -/
theorem grp_hazard_of_earlier :
    ∀ (l₁ : List Request) (r' : Request) (l₂ : List Request) (r : Request),
      r ∉ l₁ → r' ≠ r → r'.address = r.address →
      FrFcfsGrpScheduler.has_address_hazard (l₁ ++ r' :: l₂) r = true := by
  intro l₁
  induction l₁ with
  | nil =>
    intro r' l₂ r _ hne haddr
    simp only [List.nil_append, FrFcfsGrpScheduler.has_address_hazard]
    rw [if_neg hne, if_pos haddr]
  | cons a t ih =>
    intro r' l₂ r hmem hne haddr
    have har : a ≠ r := fun h => hmem (by rw [h]; exact List.mem_cons_self r t)
    have hmem' : r ∉ t := fun h => hmem (List.mem_cons_of_mem a h)
    simp only [List.cons_append, FrFcfsGrpScheduler.has_address_hazard]
    rw [if_neg har]
    by_cases haa : a.address = r.address
    · rw [if_pos haa]
    · rw [if_neg haa]
      exact ih r' l₂ r hmem' hne haddr

/-- Claim C5: FrFcfsGrpScheduler::get_next never returns a request for which an
earlier request to the same address is still in the bank queue. Requests in a
queue have unique ids (controller invariant), and decoded rows are a function
of the address, so equal addresses mean equal rows. -/
theorem grp_get_next_no_earlier_same_address (s : FrFcfsGrpScheduler) (bank : Nat)
    (open_row : Option Nat) (lc : RequestType) (r r' : Request)
    (l₁ l₂ l₃ : List Request)
    (hdec : s.buffers.getD bank [] = l₁ ++ r' :: l₂ ++ r :: l₃)
    (hids : (s.buffers.getD bank []).Pairwise (fun a b => a.id ≠ b.id))
    (hcons : ∀ a ∈ s.buffers.getD bank [], ∀ b ∈ s.buffers.getD bank [],
      a.address = b.address → a.row = b.row)
    (hres : s.get_next bank open_row lc = some r) :
    r'.address ≠ r.address := by
  intro haddr
  have hdec' : s.buffers.getD bank [] = l₁ ++ r' :: (l₂ ++ r :: l₃) := by
    rw [hdec, List.append_assoc, List.cons_append]
  have hne : s.buffers.getD bank [] ≠ [] := by rw [hdec']; simp
  have hemp : (s.buffers.getD bank []).isEmpty = false := List.isEmpty_eq_false.2 hne
  rw [hdec'] at hids
  obtain ⟨_, hp2, hp3⟩ := List.pairwise_append.1 hids
  obtain ⟨hr'all, _⟩ := List.pairwise_cons.1 hp2
  have hrmem2 : r ∈ l₂ ++ r :: l₃ := List.mem_append_right _ (List.mem_cons_self r l₃)
  have hner : r' ≠ r := fun h => hr'all r hrmem2 (congrArg Request.id h)
  have hnotl₁ : r ∉ l₁ := fun h =>
    hp3 r h r (List.mem_cons_of_mem r' hrmem2) rfl
  have hr'buf : r' ∈ s.buffers.getD bank [] := by
    rw [hdec']; exact List.mem_append_right _ (List.mem_cons_self r' _)
  have hrbuf : r ∈ s.buffers.getD bank [] := by
    rw [hdec']
    exact List.mem_append_right _ (List.mem_cons_of_mem r' hrmem2)
  cases open_row with
  | none =>
    simp only [FrFcfsGrpScheduler.get_next, hemp, Bool.false_eq_true, if_false] at hres
    rw [hdec'] at hres
    rcases head?_append_cons _ r' _ r hres with hmem | hrr'
    · exact hnotl₁ hmem
    · exact hner hrr'.symm
  | some row =>
    simp only [FrFcfsGrpScheduler.get_next, hemp, Bool.false_eq_true, if_false] at hres
    by_cases hrh : ((s.buffers.getD bank []).filter (fun x => x.row == row)).isEmpty = true
    · rw [if_pos hrh] at hres
      rw [hdec'] at hres
      rcases head?_append_cons _ r' _ r hres with hmem | hrr'
      · exact hnotl₁ hmem
      · exact hner hrr'.symm
    · rw [if_neg hrh] at hres
      rcases hfind : ((s.buffers.getD bank []).filter (fun x => x.row == row)).find?
          (fun x => x.type == s.last_command
            && ! FrFcfsGrpScheduler.has_address_hazard
                ((s.buffers.getD bank []).filter (fun x => x.row == row)) x)
        with _ | q
      all_goals rw [hfind] at hres
      · -- fallback: the head of the row-hit list was returned, so r is its head
        have hres2 : ((s.buffers.getD bank []).filter
            (fun x => x.row == row)).head? = some r := hres
        have hrinrh : r ∈ (s.buffers.getD bank []).filter (fun x => x.row == row) := by
          cases hrh' : (s.buffers.getD bank []).filter (fun x => x.row == row) with
          | nil => rw [hrh'] at hres2; simp at hres2
          | cons a t =>
            rw [hrh'] at hres2
            simp only [List.head?_cons, Option.some.injEq] at hres2
            rw [← hres2]
            exact List.mem_cons_self a t
        have hprn : (r.row == row) = true := (List.mem_filter.1 hrinrh).2
        have hpr' : (r'.row == row) = true := by
          have h1 : r'.row = r.row := hcons r' hr'buf r hrbuf haddr
          have h2 : r.row = row := by simpa using hprn
          simp [h1, h2]
        have hrhdec : (s.buffers.getD bank []).filter (fun x => x.row == row)
            = l₁.filter (fun x => x.row == row)
              ++ r' :: (l₂.filter (fun x => x.row == row)
                ++ r :: l₃.filter (fun x => x.row == row)) := by
          rw [hdec']
          exact filter_decomp_row row l₁ r' l₂ r l₃ hpr' hprn
        have hnotl₁f : r ∉ l₁.filter (fun x => x.row == row) := fun h =>
          hnotl₁ (List.mem_filter.1 h).1
        rw [hrhdec] at hres2
        rcases head?_append_cons _ r' _ r hres2 with hmem | hrr'
        · exact hnotl₁f hmem
        · exact hner hrr'.symm
      · -- a same-type hazard-free hit was returned: but r does have a hazard
        have hres2 : some q = some r := hres
        rw [Option.some.inj hres2] at hfind
        have hrinrh : r ∈ (s.buffers.getD bank []).filter (fun x => x.row == row) :=
          List.mem_of_find?_eq_some hfind
        have hprn : (r.row == row) = true := (List.mem_filter.1 hrinrh).2
        have hpr' : (r'.row == row) = true := by
          have h1 : r'.row = r.row := hcons r' hr'buf r hrbuf haddr
          have h2 : r.row = row := by simpa using hprn
          simp [h1, h2]
        have hrhdec : (s.buffers.getD bank []).filter (fun x => x.row == row)
            = l₁.filter (fun x => x.row == row)
              ++ r' :: (l₂.filter (fun x => x.row == row)
                ++ r :: l₃.filter (fun x => x.row == row)) := by
          rw [hdec']
          exact filter_decomp_row row l₁ r' l₂ r l₃ hpr' hprn
        have hnotl₁f : r ∉ l₁.filter (fun x => x.row == row) := fun h =>
          hnotl₁ (List.mem_filter.1 h).1
        have hprop := List.find?_some hfind
        have hhaz : FrFcfsGrpScheduler.has_address_hazard
            ((s.buffers.getD bank []).filter (fun x => x.row == row)) r = false := by
          simp only [Bool.and_eq_true] at hprop
          simpa using hprop.2
        have hhaz' : FrFcfsGrpScheduler.has_address_hazard
            ((s.buffers.getD bank []).filter (fun x => x.row == row)) r = true := by
          rw [hrhdec]
          exact grp_hazard_of_earlier _ r' _ r hnotl₁f hner haddr
        rw [hhaz] at hhaz'
        exact Bool.false_ne_true hhaz'

/-- Witness for C5: two same-row requests with distinct addresses; the selected
same-type request indeed has no earlier same-address request in the queue. -/
theorem grp_get_next_no_earlier_same_address_witness :
    ({ id := 1, address := 100, row := 7 } : Request).address
      ≠ ({ id := 2, address := 200, row := 7, type := RequestType.WRITE } : Request).address :=
  grp_get_next_no_earlier_same_address
    (FrFcfsGrpScheduler.mk 32
      [[{ id := 1, address := 100, row := 7 },
        { id := 2, address := 200, row := 7, type := RequestType.WRITE }]] 2
      RequestType.WRITE)
    0 (some 7) RequestType.WRITE
    { id := 2, address := 200, row := 7, type := RequestType.WRITE }
    { id := 1, address := 100, row := 7 }
    [] [] []
    (by decide) (by decide) (by decide) (by decide)

-- ============================================================================
-- Claim C1 — command bus occupancy per cycle
-- ============================================================================

/-- Each iteration of the issue loop puts at most one command on the bus, and
any command it adds targets the bank index of that iteration. -/
theorem issueStep_cmds_shape (cfg : ControllerConfig) (now : Nat) (st : IssueSt) (i : Nat) :
    (issueStep cfg now st i).cmds = st.cmds
    ∨ ∃ k, (issueStep cfg now st i).cmds = st.cmds ++ [{ kind := k, bank := i }] := by
  simp only [issueStep]
  split
  · left; rfl
  · split
    · split
      · right; exact ⟨CmdKind.ACT, rfl⟩
      · left; rfl
    · split
      · split
        · split
          · right; exact ⟨_, rfl⟩
          · left; rfl
        · split
          · right; exact ⟨CmdKind.PRE, rfl⟩
          · left; rfl
      · left; rfl

/-- Across the issue loop, a bank receives at most as many commands as its
index occurs in the visited index list. -/
theorem foldl_issueStep_countP (cfg : ControllerConfig) (now : Nat) (b : Nat) :
    ∀ (l : List Nat) (st : IssueSt),
      ((l.foldl (issueStep cfg now) st).cmds.countP (fun c => c.bank == b))
        ≤ st.cmds.countP (fun c => c.bank == b) + l.count b := by
  intro l
  induction l with
  | nil => intro st; simp
  | cons i t ih =>
    intro st
    rw [List.foldl_cons]
    refine le_trans (ih (issueStep cfg now st i)) ?_
    rcases issueStep_cmds_shape cfg now st i with h | ⟨k, h⟩
    · rw [h, List.count_cons]
      by_cases hib : (i == b) = true
      · simp [hib]
      · simp [hib]
    · rw [h, List.countP_append, List.count_cons]
      have hsing : List.countP (fun c => c.bank == b) [({ kind := k, bank := i } : Cmd)]
          = if (i == b) = true then 1 else 0 := by
        simp [List.countP_cons]
      rw [hsing]
      by_cases hib : (i == b) = true
      · simp [hib]
        omega
      · simp [hib]

/-- The commands a tick puts on the bus are those of the issue_commands loop
started from the empty command list. -/
theorem tick_cmds_eq (c : CAController) :
    c.tick.2.1 = (issue_commands c.config (c.current_cycle + 1)
      ⟨update_bank_states (c.current_cycle + 1) c.banks, c.scheduler, c.stats,
        c.last_command, c.last_read_cycle, c.last_write_cycle, [], []⟩).cmds := rfl

/-- Claim C1 (amended): during one tick() the controller issues at most one
command per bank; commands to distinct banks can share a cycle. -/
theorem ca_tick_at_most_one_cmd_per_bank (c : CAController) (b : Nat) :
    ((c.tick.2.1).countP (fun cmd => cmd.bank == b)) ≤ 1 := by
  rw [tick_cmds_eq c]
  simp only [issue_commands]
  refine le_trans (foldl_issueStep_countP c.config (c.current_cycle + 1) b _ _) ?_
  simp only [List.countP_nil, Nat.zero_add]
  exact List.nodup_iff_count_le_one.1 (List.nodup_range _) b

/-- Claim C1 counterexample: from reset, two reads queued to banks 0 and 1 are
both answered with an ACT in the same tick — two DRAM commands are issued on
the command bus in one cycle, refuting "at most one command per cycle". -/
theorem ca_tick_two_acts_one_cycle :
    ((((CAController.init cfgTwoBanks).submit readReq0).2.submit readReq1).2.tick.2.1)
      = [{ kind := CmdKind.ACT, bank := 0 }, { kind := CmdKind.ACT, bank := 1 }]
    ∧ 1 < ((((CAController.init cfgTwoBanks).submit readReq0).2.submit
        readReq1).2.tick.2.1).length := by
  decide

-- ============================================================================
-- Claim C2 — RD row-hit latch
-- ============================================================================

/-- Claim C2 (amended): when a RD is issued to an ACTIVE bank with matching
open row at cycle now, the bank is latched as READING with
state_until = now + tBurst, next_rd = now + tCCD_S, next_wr = now + tRTW,
and next_pre (and next_act) are left unchanged — tRTP is never applied. -/
theorem issueStep_rd_row_hit_latch (cfg : ControllerConfig) (now : Nat) (st : IssueSt)
    (i : Nat) (req : Request)
    (hstate : (st.banks.getD i {}).state = BankState.ACTIVE)
    (hget : st.scheduler.get_next i (some (st.banks.getD i {}).open_row) st.last_command
      = some req)
    (hrow : (st.banks.getD i {}).open_row = req.row)
    (htype : req.type = RequestType.READ)
    (hready : (st.banks.getD i {}).next_rd ≤ now) :
    (issueStep cfg now st i).banks
      = st.banks.set i
          { st.banks.getD i {} with
            state := BankState.READING
            state_until := now + cfg.timing.tBurst
            next_rd := now + cfg.timing.tCCD_S
            next_wr := now + cfg.timing.tRTW }
    ∧ (issueStep cfg now st i).cmds = st.cmds ++ [{ kind := CmdKind.RD, bank := i }] := by
  have hready' : (st.banks.getD i {}).is_ready_for RequestType.READ now = true := by
    unfold LPDDR5Bank.is_ready_for
    rw [if_neg (fun h => h hstate), if_pos rfl]
    exact decide_eq_true hready
  rw [hrow] at hget
  have hfalse : (BankState.ACTIVE = BankState.IDLE) = False := by simp
  simp only [issueStep, hstate, hrow, htype, hready', hget, hfalse, eq_self_iff_true,
    if_true, if_false, and_self]

/-- A one-bank issue state ready to serve a queued row-3 read. -/
def wSt : IssueSt :=
  { banks := [{ state := BankState.ACTIVE, open_row := 3 }]
    scheduler := { buffer_size := 32
                   buffers := [[{ id := 1, row := 3, type := RequestType.READ }]]
                   total_occupancy := 1 }
    stats := {}
    last_command := RequestType.READ
    last_read_cycle := 0
    last_write_cycle := 0
    cmds := []
    events := [] }

/-- Witness for the amended C2 at the concrete one-bank state wSt, now = 5. -/
theorem issueStep_rd_row_hit_latch_witness :
    (issueStep {} 5 wSt 0).banks
      = wSt.banks.set 0
          { wSt.banks.getD 0 {} with
            state := BankState.READING
            state_until := 5 + ({} : ControllerConfig).timing.tBurst
            next_rd := 5 + ({} : ControllerConfig).timing.tCCD_S
            next_wr := 5 + ({} : ControllerConfig).timing.tRTW }
    ∧ (issueStep {} 5 wSt 0).cmds = wSt.cmds ++ [{ kind := CmdKind.RD, bank := 0 }] :=
  issueStep_rd_row_hit_latch {} 5 wSt 0 { id := 1, row := 3, type := RequestType.READ }
    (by decide) (by decide) (by decide) (by decide) (by decide)

/-- Claim C2 counterexample: drive the controller from reset with one read
(submitted at cycle 0); at cycle 15 the RD is issued on a row hit, yet the
bank's next_pre stays 0 — not now + tRTP = 21 as the claim requires. -/
theorem ca_rd_row_hit_next_pre_unchanged :
    ((((CAController.init cfgOneBank).submit readReq0).2.run 14).tick.2.1)
      = [{ kind := CmdKind.RD, bank := 0 }]
    ∧ (((CAController.init cfgOneBank).submit readReq0).2.run 14).current_cycle + 1 = 15
    ∧ (((((CAController.init cfgOneBank).submit readReq0).2.run 14).tick.1).banks.getD 0
        {}).next_pre = 0
    ∧ (0 : Nat) ≠ 15 + cfgOneBank.timing.tRTP := by
  decide

-- ============================================================================
-- Claim C3 — statistics classification invariant
-- ============================================================================

/-- Claim C3 at the failing input: a single read submitted at cycle 0 to an
idle bank and run to completion leaves reads + writes = 1 but
page_hits + page_empty + page_conflicts = 2 (the row hit is counted twice and
page_empty never), refuting the classify-exactly-once invariant. -/
theorem ca_stats_single_read_misclassified :
    ((((CAController.init cfgOneBank).submit readReq0).2.run 15).pending_count = 0)
    ∧ ((((CAController.init cfgOneBank).submit readReq0).2.run 15).stats.reads = 1)
    ∧ ((((CAController.init cfgOneBank).submit readReq0).2.run 15).stats.writes = 0)
    ∧ ((((CAController.init cfgOneBank).submit readReq0).2.run 15).stats.page_hits = 2)
    ∧ ((((CAController.init cfgOneBank).submit readReq0).2.run 15).stats.page_empty = 0)
    ∧ ((((CAController.init cfgOneBank).submit readReq0).2.run 15).stats.page_conflicts = 0)
    ∧ (((((CAController.init cfgOneBank).submit readReq0).2.run 15).stats.reads
          + (((CAController.init cfgOneBank).submit readReq0).2.run 15).stats.writes)
        ≠ ((((CAController.init cfgOneBank).submit readReq0).2.run 15).stats.page_hits
          + (((CAController.init cfgOneBank).submit readReq0).2.run 15).stats.page_empty
          + (((CAController.init cfgOneBank).submit readReq0).2.run 15).stats.page_conflicts)) := by
  decide

-- ============================================================================
-- Claim C6 — behavioral controller completes inline
-- ============================================================================

/-- Claim C6: BehavioralLPDDR5Controller::submit invokes the attached
completion callback exactly once before returning, with latency
fixed_read_latency for a READ and fixed_write_latency for a WRITE; tick only
increments the cycle counter and performs no completion work. -/
theorem behavioral_submit_completes_inline (c : BehavioralController) (req : Request)
    (h : req.callback = true) :
    (c.submit req).2.2
      = [(c.next_id,
          if req.type = RequestType.READ then c.config.timing.fixed_read_latency
          else c.config.timing.fixed_write_latency)]
    ∧ (c.submit req).1 = some c.next_id
    ∧ (∀ d : BehavioralController,
        d.tick.2 = [] ∧ d.tick.1 = { d with current_cycle := d.current_cycle + 1 }) := by
  refine ⟨?_, rfl, fun d => ⟨rfl, rfl⟩⟩
  simp only [BehavioralController.submit, h, if_true]

/-- Witness for C6 at the behavioral controller fresh from construction and a
read request carrying a callback. -/
theorem behavioral_submit_completes_inline_witness :
    ((BehavioralController.init {}).submit readReq0).2.2
      = [((BehavioralController.init {}).next_id,
          if readReq0.type = RequestType.READ
          then (BehavioralController.init {}).config.timing.fixed_read_latency
          else (BehavioralController.init {}).config.timing.fixed_write_latency)]
    ∧ ((BehavioralController.init {}).submit readReq0).1
      = some (BehavioralController.init {}).next_id
    ∧ (∀ d : BehavioralController,
        d.tick.2 = [] ∧ d.tick.1 = { d with current_cycle := d.current_cycle + 1 }) :=
  behavioral_submit_completes_inline (BehavioralController.init {}) readReq0 (by decide)

-- ============================================================================
-- Claim C7 — cycle-accurate submit contract
-- ============================================================================

/-- Claim C7: cycle-accurate submit returns nothing exactly when the scheduler
has no space (occupancy at/over the buffer capacity, which init sets to
queue_depth); a rejected submit changes nothing, and an accepted one returns
the fresh id, bumps next_id, stamps submit_cycle = current_cycle, decodes the
address, and stores the request into the scheduler. -/
theorem ca_submit_contract (c : CAController) (request : Request) (cfg : ControllerConfig) :
    ((c.submit request).1 = none
      ↔ c.scheduler.buffer_size < c.scheduler.total_occupancy + 1)
    ∧ ((c.submit request).1 = none → (c.submit request).2 = c)
    ∧ (c.scheduler.total_occupancy + 1 ≤ c.scheduler.buffer_size →
        (c.submit request).1 = some c.next_id
        ∧ (c.submit request).2
          = { c with
              next_id := c.next_id + 1
              scheduler := c.scheduler.store
                (decode_address c.config.organization
                  { request with id := c.next_id, submit_cycle := c.current_cycle }) })
    ∧ (CAController.init cfg).scheduler.buffer_size = cfg.queue_depth := by
  refine ⟨?_, ?_, ?_, rfl⟩
  · by_cases hsp : c.scheduler.total_occupancy + 1 ≤ c.scheduler.buffer_size
    · simp only [CAController.submit, FrFcfsScheduler.has_space]
      rw [if_neg (by simp [hsp])]
      simp only [decode_address]
      constructor
      · intro habs; exact absurd habs (by simp)
      · intro hlt; omega
    · simp only [CAController.submit, FrFcfsScheduler.has_space]
      rw [if_pos (by simp [hsp])]
      simp only [true_iff]
      omega
  · intro hnone
    by_cases hsp : c.scheduler.total_occupancy + 1 ≤ c.scheduler.buffer_size
    · exfalso
      revert hnone
      simp only [CAController.submit, FrFcfsScheduler.has_space]
      rw [if_neg (by simp [hsp])]
      simp
    · simp only [CAController.submit, FrFcfsScheduler.has_space]
      rw [if_pos (by simp [hsp])]
  · intro hsp
    constructor
    · simp only [CAController.submit, FrFcfsScheduler.has_space]
      rw [if_neg (by simp [hsp])]
      rfl
    · simp only [CAController.submit, FrFcfsScheduler.has_space]
      rw [if_neg (by simp [hsp])]

/-- Witness for C7 at a freshly constructed two-bank controller. -/
theorem ca_submit_contract_witness :
    (((CAController.init cfgTwoBanks).submit readReq0).1 = none
      ↔ (CAController.init cfgTwoBanks).scheduler.buffer_size
        < (CAController.init cfgTwoBanks).scheduler.total_occupancy + 1)
    ∧ (((CAController.init cfgTwoBanks).submit readReq0).1 = none
        → ((CAController.init cfgTwoBanks).submit readReq0).2 = CAController.init cfgTwoBanks)
    ∧ ((CAController.init cfgTwoBanks).scheduler.total_occupancy + 1
          ≤ (CAController.init cfgTwoBanks).scheduler.buffer_size →
        ((CAController.init cfgTwoBanks).submit readReq0).1
          = some (CAController.init cfgTwoBanks).next_id
        ∧ ((CAController.init cfgTwoBanks).submit readReq0).2
          = { CAController.init cfgTwoBanks with
              next_id := (CAController.init cfgTwoBanks).next_id + 1
              scheduler := (CAController.init cfgTwoBanks).scheduler.store
                (decode_address (CAController.init cfgTwoBanks).config.organization
                  { readReq0 with
                    id := (CAController.init cfgTwoBanks).next_id
                    submit_cycle := (CAController.init cfgTwoBanks).current_cycle }) })
    ∧ (CAController.init cfgOneBank).scheduler.buffer_size = cfgOneBank.queue_depth :=
  ca_submit_contract (CAController.init cfgTwoBanks) readReq0 cfgOneBank

-- ============================================================================
-- Claim C8 — address validation at submit
-- ============================================================================

/-- A configuration whose banks have only 1024 rows. -/
def cfgSmallRows : ControllerConfig :=
  { organization := { rows_per_bank := 1024 } }

/-- A read whose address places 5000 in the row bit field — far beyond the
1024 rows_per_bank of cfgSmallRows. -/
def hugeRowReq : Request := { address := 5000 * 16384, type := RequestType.READ }

/-- Claim C8 counterexample: a request whose decoded row (5000) exceeds
rows_per_bank (1024) is accepted by submit — no invalid-address error exists
anywhere in the controller. -/
theorem ca_submit_accepts_out_of_range_row :
    ((CAController.init cfgSmallRows).submit hugeRowReq).1 = some 1
    ∧ (((CAController.init cfgSmallRows).submit hugeRowReq).2.scheduler.buffers.getD 0 []).map
        Request.row = [5000]
    ∧ cfgSmallRows.organization.rows_per_bank < 5000 := by
  decide

/-- Claim C8 (amended): submit performs no address validation; whenever the
scheduler has space the request is accepted, whatever its decoded row, bank or
channel — the only submit-time rejection is queue-full. -/
theorem ca_submit_no_address_validation (c : CAController) (request : Request)
    (h : c.scheduler.total_occupancy + 1 ≤ c.scheduler.buffer_size) :
    (c.submit request).1 = some c.next_id := by
  simp only [CAController.submit, FrFcfsScheduler.has_space]
  rw [if_neg (by simp [h])]
  rfl

/-- Witness for the amended C8: the out-of-range-row request is accepted. -/
theorem ca_submit_no_address_validation_witness :
    ((CAController.init cfgSmallRows).submit hugeRowReq).1
      = some (CAController.init cfgSmallRows).next_id :=
  ca_submit_no_address_validation (CAController.init cfgSmallRows) hugeRowReq (by decide)

-- ============================================================================
-- Claim C9 — reset
-- ============================================================================

/-- Claim C9 at the failing input: after two accepted requests, reset() zeroes
the cycle and id counters, restores every bank to IDLE defaults and resets the
statistics — but the scheduler buffer is left untouched, so pending_count is
still 2 and has_pending still true, contradicting "clear scheduler". -/
theorem ca_reset_retains_pending :
    (((((CAController.init cfgTwoBanks).submit readReq0).2.submit
        readReq1).2.reset).current_cycle = 0)
    ∧ (((((CAController.init cfgTwoBanks).submit readReq0).2.submit
        readReq1).2.reset).next_id = 1)
    ∧ (((((CAController.init cfgTwoBanks).submit readReq0).2.submit
        readReq1).2.reset).banks = List.replicate 2 {})
    ∧ (((((CAController.init cfgTwoBanks).submit readReq0).2.submit
        readReq1).2.reset).stats = ({} : Statistics))
    ∧ (((((CAController.init cfgTwoBanks).submit readReq0).2.submit
        readReq1).2.reset).pending_count = 2)
    ∧ (((((CAController.init cfgTwoBanks).submit readReq0).2.submit
        readReq1).2.reset).has_pending = true) := by
  decide

-- ============================================================================
-- Claim C10 — has_pending semantics
-- ============================================================================

/-- Claim C10: in all three schedulers, has_pending(bank, type) ignores the
request type and holds exactly when the bank's queue holds at least two
requests; in particular a bank with exactly one pending request reports
has_pending = false. -/
theorem schedulers_has_pending_two_iff (f : FifoScheduler) (s : FrFcfsScheduler)
    (g : FrFcfsGrpScheduler) (bank : Nat) (t t' : RequestType) :
    (f.has_pending bank t = f.has_pending bank t'
      ∧ (f.has_pending bank t = true ↔ 2 ≤ (f.buffers.getD bank []).length)
      ∧ ((f.buffers.getD bank []).length = 1 → f.has_pending bank t = false))
    ∧ (s.has_pending bank t = s.has_pending bank t'
      ∧ (s.has_pending bank t = true ↔ 2 ≤ (s.buffers.getD bank []).length)
      ∧ ((s.buffers.getD bank []).length = 1 → s.has_pending bank t = false))
    ∧ (g.has_pending bank t = g.has_pending bank t'
      ∧ (g.has_pending bank t = true ↔ 2 ≤ (g.buffers.getD bank []).length)
      ∧ ((g.buffers.getD bank []).length = 1 → g.has_pending bank t = false)) := by
  refine ⟨⟨rfl, ?_, ?_⟩, ⟨rfl, ?_, ?_⟩, ⟨rfl, ?_, ?_⟩⟩
  · simp [FifoScheduler.has_pending]
  · intro h1
    simp only [FifoScheduler.has_pending, h1]
    rfl
  · simp [FrFcfsScheduler.has_pending]
  · intro h1
    simp only [FrFcfsScheduler.has_pending, h1]
    rfl
  · simp [FrFcfsGrpScheduler.has_pending]
  · intro h1
    simp only [FrFcfsGrpScheduler.has_pending, h1]
    rfl

/-- Witness for C10: concrete schedulers each holding exactly one request in
bank 0 report has_pending = false for both request types. -/
theorem schedulers_has_pending_two_iff_witness :
    ((FifoScheduler.mk 4 [[{}]] 1).has_pending 0 RequestType.READ
        = (FifoScheduler.mk 4 [[{}]] 1).has_pending 0 RequestType.WRITE
      ∧ ((FifoScheduler.mk 4 [[{}]] 1).has_pending 0 RequestType.READ = true
        ↔ 2 ≤ ((FifoScheduler.mk 4 [[{}]] 1).buffers.getD 0 []).length)
      ∧ (((FifoScheduler.mk 4 [[{}]] 1).buffers.getD 0 []).length = 1
        → (FifoScheduler.mk 4 [[{}]] 1).has_pending 0 RequestType.READ = false))
    ∧ ((FrFcfsScheduler.mk 4 [[{}]] 1).has_pending 0 RequestType.READ
        = (FrFcfsScheduler.mk 4 [[{}]] 1).has_pending 0 RequestType.WRITE
      ∧ ((FrFcfsScheduler.mk 4 [[{}]] 1).has_pending 0 RequestType.READ = true
        ↔ 2 ≤ ((FrFcfsScheduler.mk 4 [[{}]] 1).buffers.getD 0 []).length)
      ∧ (((FrFcfsScheduler.mk 4 [[{}]] 1).buffers.getD 0 []).length = 1
        → (FrFcfsScheduler.mk 4 [[{}]] 1).has_pending 0 RequestType.READ = false))
    ∧ ((FrFcfsGrpScheduler.mk 4 [[{}]] 1 RequestType.READ).has_pending 0 RequestType.READ
        = (FrFcfsGrpScheduler.mk 4 [[{}]] 1 RequestType.READ).has_pending 0 RequestType.WRITE
      ∧ ((FrFcfsGrpScheduler.mk 4 [[{}]] 1 RequestType.READ).has_pending 0 RequestType.READ = true
        ↔ 2 ≤ ((FrFcfsGrpScheduler.mk 4 [[{}]] 1 RequestType.READ).buffers.getD 0 []).length)
      ∧ (((FrFcfsGrpScheduler.mk 4 [[{}]] 1 RequestType.READ).buffers.getD 0 []).length = 1
        → (FrFcfsGrpScheduler.mk 4 [[{}]] 1 RequestType.READ).has_pending 0
            RequestType.READ = false)) :=
  schedulers_has_pending_two_iff (FifoScheduler.mk 4 [[{}]] 1) (FrFcfsScheduler.mk 4 [[{}]] 1)
    (FrFcfsGrpScheduler.mk 4 [[{}]] 1 RequestType.READ) 0 RequestType.READ RequestType.WRITE

end MemSim
